import Mathlib

/-! Verification development for the sentiment dashboard pipeline
(`deployment.py`, `plot_sentiment.py`, `check_columns.py`).

Shallow embedding conventions:
* timestamps are natural numbers (seconds since an epoch); a calendar
  date is the day index `t / 86400` (`pandas .dt.date`);
* sentiment scores are rationals;
* the pandas coercions `pd.to_numeric(..., errors="coerce")` and
  `pd.to_datetime(..., errors="coerce")` map each raw cell to an
  `Option` value: `none` is a cell whose parse failed (NaN / NaT);
* a `pandas.DataFrame` is a column-name list together with a row list;
* a Python exception that is never caught is modelled by `Except.error`
  propagating out of the embedded script. -/

namespace Sentiment

/-- `pandas .dt.date` truncates a timestamp to its calendar date,
modelled as the day index: integer division by 86400 seconds. -/
def dateOf (t : Nat) : Nat := t / 86400

/-- One raw CSV row after the pandas type coercions of
`deployment.py` / `plot_sentiment.py`: `published`, `saved_at` and
`scores` are `none` exactly when `pd.to_datetime` / `pd.to_numeric`
with `errors="coerce"` produced NaT / NaN, and `title_or_text` /
`source` are `none` when the cell is missing (NaN). -/
structure Row where
  id : String
  platform : String
  url : String
  title_or_text : Option String
  source : Option String
  published : Option Nat
  vader_sentiment : String
  scores : Option Rat
  llm_sentiment : String
  llm_confidence : String
  llm_summary : String
  saved_at : Option Nat
deriving DecidableEq, Repr

/-- A normalized item: a row that survived
`df.dropna(subset=["published","scores"])` in `load_data`, with the
derived columns `date` (`published.dt.date`) and `keyword_hint`
(`title_or_text.fillna("").str.lower()`). -/
structure Item where
  id : String
  platform : String
  url : String
  title_or_text : Option String
  source : Option String
  published : Nat
  vader_sentiment : String
  scores : Rat
  llm_sentiment : String
  llm_confidence : String
  llm_summary : String
  saved_at : Option Nat
  date : Nat
  keyword_hint : String
deriving DecidableEq, Repr

/-- The column set of the empty frame returned by `load_data` when the
backing CSV file is absent (`deployment.py` lines 15-20). -/
def expectedColumns : List String :=
  ["id", "platform", "url", "title_or_text", "source", "published",
   "vader_sentiment", "scores", "llm_sentiment", "llm_confidence",
   "llm_summary", "saved_at"]

/-- A DataFrame at the granularity the claims need: its column names
and (for the normalized table) its item rows. -/
structure Frame where
  cols : List String
  items : List Item
deriving Repr

/-- The per-row half of `load_data` on an existing file: the derived
columns `date` and `keyword_hint` are computed, then
`dropna(subset=["published","scores"])` removes the row unless both
`published` and `scores` parsed.  (In the script the derived columns
are added to every row first and the drop happens afterwards; fusing
the two into one `Option`-valued map leaves the surviving rows
unchanged.) -/
def normalizeRow (r : Row) : Option Item :=
  match r.published, r.scores with
  | some p, some s =>
      some { id := r.id, platform := r.platform, url := r.url,
             title_or_text := r.title_or_text, source := r.source,
             published := p, vader_sentiment := r.vader_sentiment,
             scores := s, llm_sentiment := r.llm_sentiment,
             llm_confidence := r.llm_confidence,
             llm_summary := r.llm_summary, saved_at := r.saved_at,
             date := dateOf p,
             keyword_hint := (r.title_or_text.getD "").toLower }
  | _, _ => none

/-- Whether a raw row survives `dropna(subset=["published","scores"])`:
both its timestamp and its score parsed. -/
def keeps (r : Row) : Bool := r.published.isSome && r.scores.isSome

/-- The total `Item` built from a row known to survive the drop
(used to state which rows the normalizer output consists of). -/
def toItem (r : Row) : Item :=
  { id := r.id, platform := r.platform, url := r.url,
    title_or_text := r.title_or_text, source := r.source,
    published := r.published.getD 0,
    vader_sentiment := r.vader_sentiment,
    scores := r.scores.getD 0, llm_sentiment := r.llm_sentiment,
    llm_confidence := r.llm_confidence, llm_summary := r.llm_summary,
    saved_at := r.saved_at, date := dateOf (r.published.getD 0),
    keyword_hint := (r.title_or_text.getD "").toLower }

/-- `load_data` (`deployment.py` lines 14-32).  `fileExists` models
`os.path.isfile(path)`: when the backing file is absent the function
returns an empty frame with exactly the twelve expected columns; when
it is present the raw rows are coerced, the derived columns `date` and
`keyword_hint` are added, and rows whose `published` or `scores`
failed to parse are dropped. -/
def load_data (fileExists : Bool) (raw : List Row) : Frame :=
  if fileExists then
    { cols := expectedColumns ++ ["date", "keyword_hint"],
      items := raw.filterMap normalizeRow }
  else
    { cols := expectedColumns, items := [] }

/-- `sentiment_label` (`deployment.py` lines 34-37). -/
def sentiment_label (x : Rat) : String :=
  if x ≥ 0.05 then "Positive"
  else if x ≤ -0.05 then "Negative"
  else "Neutral"

/-! ### The keyword predicate: `Series.str.contains` with its default
`regex=True`.

`deployment.py` line 69 runs `df["keyword_hint"].str.contains(keyword)`,
which interprets `keyword` as a regular expression.  The embedding
models Python `re.search` on the fragment of regular expressions whose
only metacharacter is `.` (match any single character); every keyword
appearing in a theorem or witness below lies in this fragment, and the
literal-substring theorems additionally exclude every regex
metacharacter so that this fragment and full Python regex agree. -/

/-- A token of the regular-expression fragment: the `.` wildcard or a
literal character. -/
inductive RTok where
  | dot : RTok
  | lit : Char → RTok
deriving DecidableEq, Repr

/-- A keyword read as a pattern of the fragment: `.` becomes the
wildcard, every other character a literal. -/
def tokenize (kw : String) : List RTok :=
  kw.data.map fun c => if c = '.' then RTok.dot else RTok.lit c

/-- One token against one character. -/
def tokMatch : RTok → Char → Bool
  | RTok.dot, _ => true
  | RTok.lit c, d => c == d

/-- Whether the pattern matches a leading segment of the text. -/
def matchHere : List RTok → List Char → Bool
  | [], _ => true
  | _ :: _, [] => false
  | t :: ts, c :: cs => tokMatch t c && matchHere ts cs

/-- Python `re.search` on the fragment: the pattern matches at some
position of the text. -/
def reSearch (p : List RTok) : List Char → Bool
  | [] => matchHere p []
  | c :: cs => matchHere p (c :: cs) || reSearch p cs

/-- `Series.str.contains(kw)` with default `regex=True`, on this
fragment: regex search of `kw` in the string. -/
def str_contains (s kw : String) : Bool := reSearch (tokenize kw) s.data

/-- Literal-substring matching at the head of the text — the reading
the spec uses ("contains ... as a literal substring"); compared below
against the regex behavior the code actually has. -/
def litHere : List Char → List Char → Bool
  | [], _ => true
  | _ :: _, [] => false
  | c :: cs, d :: ds => c == d && litHere cs ds

/-- Literal-substring occurrence anywhere in the text (spec reading). -/
def litSubstr (kw : List Char) : List Char → Bool
  | [] => litHere kw []
  | c :: cs => litHere kw (c :: cs) || litSubstr kw cs

/-- The characters Python regular expressions treat as metacharacters;
keywords free of them mean the same as literal substrings. -/
def regexMetachars : List Char :=
  ['.', '^', '$', '*', '+', '?', Char.ofNat 123, Char.ofNat 125,
   '[', ']', '(', ')', '|', '\\']

/-! ### Filter engine (`deployment.py` lines 51, 63-74) -/

/-- The sidebar filter state: date range, raw keyword text, selected
sources and the strong-alerts toggle. -/
structure FilterSpec where
  startDate : Nat
  endDate : Nat
  keyword : String
  sources : List String
  alertsOnly : Bool
deriving Repr

/-- Line 51: `st.text_input(...).strip().lower()`. -/
def procKeyword (s : String) : String := s.trim.toLower

/-- `df["source"].isin(sources)`: a null source is never in the list. -/
def sourceIn (sources : List String) (it : Item) : Bool :=
  match it.source with
  | some s => sources.contains s
  | none => false

/-- Line 68-69: when the (stripped, lowered) keyword is non-empty the
mask additionally requires `keyword_hint.str.contains(keyword)`. -/
def keywordPred (kw : String) (it : Item) : Bool :=
  if kw = "" then true else str_contains it.keyword_hint kw

/-- The row mask of lines 63-72: date-range conjunct, source
membership, optional keyword conjunct, optional strong-alert
conjunct. -/
def mask (spec : FilterSpec) (it : Item) : Bool :=
  decide (spec.startDate ≤ it.date) && decide (it.date ≤ spec.endDate) &&
  sourceIn spec.sources it &&
  keywordPred (procKeyword spec.keyword) it &&
  (if spec.alertsOnly then
    decide (it.scores ≤ -0.5) || decide (0.5 ≤ it.scores)
   else true)

/-- `fdf = df.loc[mask].copy().sort_values("published")` (line 74):
filter, then sort ascending by the `published` timestamp. -/
def fdf (df : List Item) (spec : FilterSpec) : List Item :=
  List.insertionSort (fun a b => a.published ≤ b.published)
    (df.filter (mask spec))

/-- The download button (lines 169-174) serializes `fdf` row for row:
the exported table is the filtered view in its current order. -/
def exportRows (df : List Item) (spec : FilterSpec) : List Item :=
  fdf df spec

/-! ### Aggregator (`deployment.py` lines 82-88, 114-119) -/

/-- `pandas` mean of a list of rationals: sum divided by length. -/
def listMean (l : List Rat) : Rat := l.sum / l.length

/-- `avg_score = fdf["scores"].mean() if not fdf.empty else np.nan`
(line 82); the NaN sentinel for "no data" is modelled as `none`. -/
def avg_score (l : List Item) : Option Rat :=
  if l.isEmpty then none else some (listMean (l.map Item.scores))

/-- The arithmetic mean of the filtered items, following the spec
wording ("arithmetic mean of `scores`"), for comparison with
`avg_score`. -/
def arithmeticMean (l : List Item) : Rat :=
  (l.map Item.scores).sum / l.length

/-- Group keys of `fdf.groupby("source", dropna=True)`: the distinct
non-null sources in ascending (lexicographic) key order — pandas
groupby sorts its keys, so the original appearance order is lost
here. -/
def groupKeys (l : List Item) : List String :=
  List.insertionSort (fun a b => a ≤ b) (l.filterMap Item.source).dedup

/-- The scores of the items carrying a given source. -/
def sourceScores (l : List Item) (s : String) : List Rat :=
  (l.filter fun it => it.source == some s).map Item.scores

/-- `groupby("source")["scores"].mean()`: one `(source, mean)` pair per
group key, in key order. -/
def sourceMeans (l : List Item) : List (String × Rat) :=
  (groupKeys l).map fun s => (s, listMean (sourceScores l s))

/-- `src` (`deployment.py` lines 114-119): per-source means, sorted
descending by mean and truncated to the top 10.  The value sort
(`sort_values(ascending=False)`, numpy quicksort) fixes no tie order
in general; it is modelled here as an insertion sort, and only
tie-order-insensitive properties (length, sortedness by mean) are
claimed of the program.  Concrete tie-order evaluations are stated
only for two tied groups, where the pandas sort provably coincides
with this model. -/
def top_sources (l : List Item) : List (String × Rat) :=
  (List.insertionSort (fun a b => b.2 ≤ a.2) (sourceMeans l)).take 10

/-! ### The forecast script (`plot_sentiment.py`) -/

/-- Rows kept by `df.dropna(subset=["saved_at", "scores"])`
(`plot_sentiment.py` line 13): both `saved_at` and `scores` parsed.
Note the script keys on `saved_at`, not `published`. -/
def plotKept (rows : List Row) : List Row :=
  rows.filter fun r => r.saved_at.isSome && r.scores.isSome

/-- `df["saved_at"].dt.date` of a kept row. -/
def savedDate (r : Row) : Nat := dateOf (r.saved_at.getD 0)

/-- The distinct `saved_at` calendar dates of the kept rows in
ascending order (`groupby` sorts its keys). -/
def plotDates (rows : List Row) : List Nat :=
  List.insertionSort (fun a b => a ≤ b) ((plotKept rows).map savedDate).dedup

/-- The scores of the kept rows saved on a given calendar date. -/
def scoresOnDate (rows : List Row) (d : Nat) : List Rat :=
  ((plotKept rows).filter fun r => savedDate r == d).map fun r => r.scores.getD 0

/-- `daily = df.groupby(df["saved_at"].dt.date)["scores"].mean()`
(`plot_sentiment.py` line 16): mean score per `saved_at` calendar
date, one row per distinct date, in date order. -/
def daily (rows : List Row) : List (Nat × Rat) :=
  (plotDates rows).map fun d => (d, listMean (scoresOnDate rows d))

/-- A row of the Prophet forecast output: date, point estimate and the
confidence bounds. -/
structure ForecastPoint where
  ds : Nat
  yhat : Rat
  yhat_lower : Rat
  yhat_upper : Rat
deriving DecidableEq, Repr

/-- A fitted model: the distinct observed dates plus the fitted
numeric internals, which this embedding keeps abstract as two
arbitrary functions (the delegated statistical procedure's trend value
and interval half-width per date). -/
structure ProphetModel where
  historyDates : List Nat
  trend : Nat → Rat
  width : Nat → Rat

/-- Modelled from the spec (the delegated fitting procedure is not
part of src/): fitting raises
`ValueError("Dataframe has less than 2 non-NaN rows.")` when the
history has fewer than 2 rows, and otherwise produces a model over the
observed dates whose numeric internals are the abstract parameters
`trend` and `width`.  `plot_sentiment.py` line 22 calls it with no
surrounding try/except, so the error case models an uncaught exception
terminating the script. -/
def Prophet.fit (trend width : Nat → Rat) (history : List (Nat × Rat)) :
    Except String ProphetModel :=
  if history.length < 2 then
    Except.error "Dataframe has less than 2 non-NaN rows."
  else
    Except.ok { historyDates := history.map Prod.fst,
                trend := trend, width := width }

/-- `make_future_dataframe(periods)` (documented behavior of the
delegated procedure, `plot_sentiment.py` line 25): the future frame
holds the observed history dates followed by `periods` consecutive
days after the last observed date — calendar gaps inside the observed
range are not filled. -/
def ProphetModel.make_future_dataframe (m : ProphetModel) (periods : Nat) :
    List Nat :=
  m.historyDates ++
    (List.range periods).map fun i => m.historyDates.foldr max 0 + 1 + i

/-- Modelled from the spec: the delegated prediction returns, for
every date of the future frame, a `(yhat, yhat_lower, yhat_upper)`
triple whose bounds bracket the point estimate; the numeric values
come from the abstract fitted internals. -/
def ProphetModel.predict (m : ProphetModel) (future : List Nat) :
    List ForecastPoint :=
  future.map fun d =>
    { ds := d, yhat := m.trend d,
      yhat_lower := m.trend d - |m.width d|,
      yhat_upper := m.trend d + |m.width d| }

/-- The last observed date of the daily series (`history_dates.max()`
in the delegated procedure). -/
def lastObserved (rows : List Row) : Nat :=
  ((daily rows).map Prod.fst).foldr max 0

/-- The forecasting portion of `plot_sentiment.py` (lines 22-26): fit
on the daily series, build the future frame with a 7-day horizon and
predict over it.  The script installs no exception handler, so
`Except.error` models the script terminating with the uncaught
exception. -/
def forecastScript (trend width : Nat → Rat) (rows : List Row) :
    Except String (List ForecastPoint) :=
  match Prophet.fit trend width (daily rows) with
  | Except.error e => Except.error e
  | Except.ok m => Except.ok (m.predict (m.make_future_dataframe 7))

/-! ### Concrete example data used by witnesses and counterexamples -/

/-- A fully parseable row: published and saved on day 1, score 0.6,
title "Fed Cuts Rates". -/
def exRowGood : Row :=
  { id := "1", platform := "news", url := "u1",
    title_or_text := some "Fed Cuts Rates", source := some "reuters",
    published := some 86400, vader_sentiment := "pos",
    scores := some 0.6, llm_sentiment := "", llm_confidence := "",
    llm_summary := "", saved_at := some 86400 }

/-- A row whose `published` failed to parse (NaT). -/
def exRowBadTime : Row :=
  { id := "2", platform := "news", url := "u2",
    title_or_text := some "Oil", source := some "reuters",
    published := none, vader_sentiment := "neg",
    scores := some 0.1, llm_sentiment := "", llm_confidence := "",
    llm_summary := "", saved_at := some 86400 }

/-- A row whose `scores` failed to parse (NaN). -/
def exRowBadScore : Row :=
  { id := "3", platform := "news", url := "u3",
    title_or_text := some "Gold", source := some "bbc",
    published := some 172800, vader_sentiment := "pos",
    scores := none, llm_sentiment := "", llm_confidence := "",
    llm_summary := "", saved_at := some 172800 }

/-- A row published on day 0 but saved on day 5: the forecast script
groups it under day 5. -/
def exRowShift : Row :=
  { id := "4", platform := "news", url := "u4",
    title_or_text := some "Shifted", source := some "bbc",
    published := some 0, vader_sentiment := "pos",
    scores := some 0.5, llm_sentiment := "", llm_confidence := "",
    llm_summary := "", saved_at := some 432000 }

/-- An item from source "bbc" with score 0.1. -/
def exItemB : Item :=
  { id := "5", platform := "news", url := "u5",
    title_or_text := some "B", source := some "bbc",
    published := 100, vader_sentiment := "pos", scores := 0.1,
    llm_sentiment := "", llm_confidence := "", llm_summary := "",
    saved_at := some 100, date := 0, keyword_hint := "b" }

/-- An item from source "apnews" with the same score 0.1 as
`exItemB`, appearing after it. -/
def exItemA : Item :=
  { id := "6", platform := "news", url := "u6",
    title_or_text := some "A", source := some "apnews",
    published := 200, vader_sentiment := "pos", scores := 0.1,
    llm_sentiment := "", llm_confidence := "", llm_summary := "",
    saved_at := some 200, date := 0, keyword_hint := "a" }

/-- Two rows saved on days 0 and 1 with score 0.5 each: a minimal
2-date history for the forecaster. -/
def eRows : List Row :=
  [{ id := "7", platform := "news", url := "u7",
     title_or_text := some "d0", source := some "bbc",
     published := some 0, vader_sentiment := "pos",
     scores := some 0.5, llm_sentiment := "", llm_confidence := "",
     llm_summary := "", saved_at := some 0 },
   { id := "8", platform := "news", url := "u8",
     title_or_text := some "d1", source := some "bbc",
     published := some 86400, vader_sentiment := "pos",
     scores := some 0.5, llm_sentiment := "", llm_confidence := "",
     llm_summary := "", saved_at := some 86400 }]

/-- Two rows saved on days 0 and 2 — a history with a calendar gap at
day 1. -/
def gRows : List Row :=
  [{ id := "9", platform := "news", url := "u9",
     title_or_text := some "d0", source := some "bbc",
     published := some 0, vader_sentiment := "pos",
     scores := some 0.5, llm_sentiment := "", llm_confidence := "",
     llm_summary := "", saved_at := some 0 },
   { id := "10", platform := "news", url := "u10",
     title_or_text := some "d2", source := some "bbc",
     published := some 172800, vader_sentiment := "pos",
     scores := some 0.5, llm_sentiment := "", llm_confidence := "",
     llm_summary := "", saved_at := some 172800 }]

/-- The forecast rows the script returns on the two-day history
`eRows` with zero fitted internals (for the C4 witness). -/
def ePts : List ForecastPoint :=
  match forecastScript (fun _ => 0) (fun _ => 0) eRows with
  | Except.ok pts => pts
  | Except.error _ => []

/-- The forecast rows the script returns on the gapped history `gRows`
with zero fitted internals (for the C4 counterexample). -/
def gPts : List ForecastPoint :=
  match forecastScript (fun _ => 0) (fun _ => 0) gRows with
  | Except.ok pts => pts
  | Except.error _ => []

/-- An item whose `keyword_hint` is the plain text "abc", for probing
the keyword predicate. -/
def exItemPlain : Item :=
  { id := "11", platform := "news", url := "u11",
    title_or_text := some "ABC", source := some "bbc",
    published := 300, vader_sentiment := "pos", scores := 0.2,
    llm_sentiment := "", llm_confidence := "", llm_summary := "",
    saved_at := some 300, date := 0, keyword_hint := "abc" }

instance : IsTotal Item (fun a b => a.published ≤ b.published) :=
  ⟨fun a b => Nat.le_total a.published b.published⟩

instance : IsTrans Item (fun a b => a.published ≤ b.published) :=
  ⟨fun _ _ _ => Nat.le_trans⟩

instance : IsTotal (String × Rat) (fun a b => b.2 ≤ a.2) :=
  ⟨fun a b => (le_total b.2 a.2).symm.symm⟩

instance : IsTrans (String × Rat) (fun a b => b.2 ≤ a.2) :=
  ⟨fun _ _ _ h1 h2 => le_trans h2 h1⟩

/-! ## Theorems -/

/-- C1: `sentiment_label` is a pure total function on scores: it
returns "Positive" for every score ≥ 0.05, "Negative" for every score
≤ -0.05 (both boundaries inclusive), and "Neutral" for every score
strictly between -0.05 and 0.05. -/
theorem claim_C1_sentiment_label_thresholds (x : Rat) :
    (x ≥ 0.05 → sentiment_label x = "Positive") ∧
    (x ≤ -0.05 → sentiment_label x = "Negative") ∧
    (-0.05 < x → x < 0.05 → sentiment_label x = "Neutral") := by
  refine ⟨fun h => ?_, fun h => ?_, fun h1 h2 => ?_⟩
  · simp [sentiment_label, h]
  · have hx : ¬ x ≥ 0.05 := by
      intro hge
      have : (0.05 : Rat) ≤ -0.05 := le_trans hge h
      norm_num at this
    simp [sentiment_label, hx, h]
  · have hge : ¬ x ≥ 0.05 := not_le.mpr h2
    have hle : ¬ x ≤ -0.05 := not_le.mpr h1
    simp [sentiment_label, hge, hle]

/-- Witness for C1: the three branches at the concrete scores 0.05,
-0.05 and 0. -/
theorem claim_C1_witness :
    sentiment_label 0.05 = "Positive" ∧
    sentiment_label (-0.05) = "Negative" ∧
    sentiment_label 0 = "Neutral" :=
  ⟨(claim_C1_sentiment_label_thresholds 0.05).1 (by norm_num),
   (claim_C1_sentiment_label_thresholds (-0.05)).2.1 (by norm_num),
   (claim_C1_sentiment_label_thresholds 0).2.2 (by norm_num) (by norm_num)⟩

/-- A row is kept by the normalizer exactly when both `published` and
`scores` parsed, and in that case it becomes `toItem` of the row. -/
theorem normalizeRow_eq (r : Row) :
    normalizeRow r = if keeps r then some (toItem r) else none := by
  cases hp : r.published <;> cases hs : r.scores <;>
    simp [normalizeRow, keeps, toItem, hp, hs]

/-- C2: the normalizer output consists exactly of the input rows whose
`published` and `scores` both parse; rows with an unparseable
`published` or non-numeric `scores` are absent (they normalize to
`none`, no error is raised), and the output row count is at most the
input row count. -/
theorem claim_C2_normalizer_drops_unparseable (raw : List Row) :
    (load_data true raw).items = (raw.filter keeps).map toItem ∧
    (load_data true raw).items.length ≤ raw.length ∧
    (∀ r ∈ raw, (r.published = none ∨ r.scores = none) →
      normalizeRow r = none) := by
  refine ⟨?_, ?_, ?_⟩
  · show raw.filterMap normalizeRow = (raw.filter keeps).map toItem
    induction raw with
    | nil => rfl
    | cons a l ih =>
      by_cases h : keeps a
      · simp [List.filterMap_cons, List.filter_cons, normalizeRow_eq, h, ih]
      · simp [List.filterMap_cons, List.filter_cons, normalizeRow_eq, h, ih]
  · simpa [load_data] using List.length_filterMap_le normalizeRow raw
  · intro r _ h
    rcases h with h | h
    · cases hs : r.scores <;> simp [normalizeRow, h, hs]
    · cases hp : r.published <;> simp [normalizeRow, h, hp]

/-- Witness for C2 on a concrete three-row table: only the fully
parseable row survives, the count bound holds, and the row with the
unparseable timestamp normalizes to nothing. -/
theorem claim_C2_witness :
    (load_data true [exRowGood, exRowBadTime, exRowBadScore]).items
      = [toItem exRowGood] ∧
    (load_data true [exRowGood, exRowBadTime, exRowBadScore]).items.length
      ≤ 3 ∧
    normalizeRow exRowBadTime = none := by
  have h :=
    claim_C2_normalizer_drops_unparseable [exRowGood, exRowBadTime, exRowBadScore]
  refine ⟨?_, h.2.1, h.2.2 exRowBadTime (by simp) (Or.inl rfl)⟩
  rw [h.1]
  rfl

/-- C7 counterexample: when the backing file is absent, the frame
`load_data` returns does NOT carry the derived `date` and
`keyword_hint` columns the claim asserts. -/
theorem claim_C7_counterexample :
    "date" ∉ (load_data false []).cols ∧
    "keyword_hint" ∉ (load_data false []).cols ∧
    (load_data false []).items = [] := by decide

/-- C7 amended: when the backing file is absent, `load_data` raises no
error and returns an empty table whose columns are exactly the twelve
expected input columns (without the derived `date` and `keyword_hint`
columns). -/
theorem claim_C7_missing_file_empty (raw : List Row) :
    (load_data false raw).cols = expectedColumns ∧
    (load_data false raw).items = [] :=
  ⟨rfl, rfl⟩

/-- C8: for a non-empty filtered item sequence `avg_score` is the
arithmetic mean of the scores; for the empty sequence it is the
explicit no-data sentinel (NaN, modelled `none`), which differs from
`some q` for every real score `q` — in particular from a real score
of 0. -/
theorem claim_C8_avg_score_mean_or_no_data (l : List Item) :
    (l ≠ [] → avg_score l = some (arithmeticMean l)) ∧
    avg_score ([] : List Item) = none ∧
    (∀ q : Rat, avg_score ([] : List Item) ≠ some q) := by
  refine ⟨fun h => ?_, rfl, fun q => by simp [avg_score]⟩
  have he : l.isEmpty = false := by simpa [List.isEmpty_iff] using h
  simp [avg_score, he, arithmeticMean, listMean]

/-- Witness for C8: the mean of a concrete singleton sequence. -/
theorem claim_C8_witness :
    avg_score [toItem exRowGood] = some (arithmeticMean [toItem exRowGood]) :=
  (claim_C8_avg_score_mean_or_no_data [toItem exRowGood]).1 (by simp)

/-- Matching a literal pattern at the head of a text is exactly having
the pattern as a leading segment. -/
theorem litHere_iff (kw s : List Char) :
    litHere kw s = true ↔ ∃ post, s = kw ++ post := by
  induction kw generalizing s with
  | nil => simp [litHere]
  | cons c cs ih =>
    cases s with
    | nil =>
      simp only [litHere, List.cons_append, Bool.false_eq_true, false_iff]
      rintro ⟨post, h⟩
      exact List.cons_ne_nil _ _ h.symm
    | cons d ds =>
      simp only [litHere, Bool.and_eq_true, beq_iff_eq, ih, List.cons_append]
      constructor
      · rintro ⟨rfl, post, rfl⟩
        exact ⟨post, rfl⟩
      · rintro ⟨post, hp⟩
        injection hp with h1 h2
        subst h1
        exact ⟨rfl, post, h2⟩

/-- Literal-substring occurrence is exactly a
`pre ++ pattern ++ post` decomposition of the text. -/
theorem litSubstr_iff (kw s : List Char) :
    litSubstr kw s = true ↔ ∃ pre post, s = pre ++ kw ++ post := by
  induction s with
  | nil =>
    rw [litSubstr, litHere_iff]
    constructor
    · rintro ⟨post, h⟩
      exact ⟨[], post, by simpa using h⟩
    · rintro ⟨pre, post, h⟩
      rcases List.append_eq_nil.mp h.symm with ⟨h1, h2⟩
      rcases List.append_eq_nil.mp h1 with ⟨h3, h4⟩
      exact ⟨post, by rw [h4, h2]; rfl⟩
  | cons c cs ih =>
    rw [litSubstr, Bool.or_eq_true, litHere_iff, ih]
    constructor
    · rintro (⟨post, hp⟩ | ⟨pre, post, hp⟩)
      · exact ⟨[], post, by simpa using hp⟩
      · exact ⟨c :: pre, post, by simp [hp]⟩
    · rintro ⟨pre, post, hp⟩
      cases pre with
      | nil => exact Or.inl ⟨post, by simpa using hp⟩
      | cons p ps =>
        rw [List.cons_append, List.cons_append] at hp
        injection hp with h1 h2
        exact Or.inr ⟨ps, post, h2⟩

/-- A keyword without the `.` character tokenizes to literal tokens
only. -/
theorem tokenize_noDot (kw : String) (h : ∀ c ∈ kw.data, c ≠ '.') :
    tokenize kw = kw.data.map RTok.lit := by
  unfold tokenize
  revert h
  generalize kw.data = l
  induction l with
  | nil => intro _; rfl
  | cons a t ih =>
    intro h
    simp only [List.map, List.cons.injEq]
    exact ⟨if_neg (h a (List.mem_cons_self a t)),
      ih fun c hc => h c (List.mem_cons_of_mem a hc)⟩

/-- On literal tokens, head matching of the regex fragment is literal
head matching. -/
theorem matchHere_lit (l s : List Char) :
    matchHere (l.map RTok.lit) s = litHere l s := by
  induction l generalizing s with
  | nil => cases s <;> rfl
  | cons c cs ih =>
    cases s with
    | nil => rfl
    | cons d ds => simp [matchHere, litHere, tokMatch, ih]

/-- On literal tokens, regex search is literal substring search. -/
theorem reSearch_lit (l s : List Char) :
    reSearch (l.map RTok.lit) s = litSubstr l s := by
  induction s with
  | nil => rw [reSearch, litSubstr, matchHere_lit]
  | cons c cs ih => rw [reSearch, litSubstr, matchHere_lit, ih]

/-- C5 amended: an empty keyword keeps every item, and for every
keyword free of regex metacharacters the keyword predicate keeps
exactly the items whose (lower-cased) `keyword_hint` contains the
(lower-cased) keyword as a literal substring.  In general the keyword
is interpreted as a regular expression (`str.contains` default
`regex=True`), not as a literal substring — see the counterexample. -/
theorem claim_C5_keyword_regex_substring (kw : String) (it : Item)
    (hmeta : ∀ c ∈ kw.data, c ∉ regexMetachars) :
    keywordPred "" it = true ∧
    (keywordPred kw it = true ↔
      kw = "" ∨ ∃ pre post, it.keyword_hint.data = pre ++ kw.data ++ post) := by
  refine ⟨rfl, ?_⟩
  by_cases hk : kw = ""
  · subst hk
    simp [keywordPred]
  · have hdot : ∀ c ∈ kw.data, c ≠ '.' := fun c hc heq =>
      hmeta c hc (by rw [heq]; decide)
    rw [keywordPred, if_neg hk, str_contains, tokenize_noDot kw hdot,
      reSearch_lit, litSubstr_iff]
    simp [hk]

/-- C5 counterexample: with keyword ".", the item whose `keyword_hint`
is "abc" is kept by the filter although "." does not occur in "abc" as
a literal substring — `str.contains` reads the keyword as a regular
expression, where `.` matches any single character. -/
theorem claim_C5_counterexample :
    keywordPred "." exItemPlain = true ∧
    ¬ ∃ pre post, exItemPlain.keyword_hint.data = pre ++ ".".data ++ post := by
  constructor
  · decide
  · intro h
    have hfalse := (litSubstr_iff ".".data exItemPlain.keyword_hint.data).mpr h
    revert hfalse
    decide

/-- Witness for C5 at a concrete metacharacter-free keyword: "b" keeps
the item exactly because "b" occurs literally in the hint "abc". -/
theorem claim_C5_witness :
    keywordPred "b" exItemPlain = true ∧
    (∃ pre post, exItemPlain.keyword_hint.data = pre ++ "b".data ++ post) := by
  have h := claim_C5_keyword_regex_substring "b" exItemPlain (by decide)
  have hsub : ∃ pre post, exItemPlain.keyword_hint.data = pre ++ "b".data ++ post :=
    ⟨['a'], ['c'], by decide⟩
  exact ⟨h.2.mpr (Or.inr hsub), hsub⟩

/-- C10: the filtered view `fdf` — the table every downstream output
and the CSV export are computed from — is sorted ascending by
`published`, and the export is `fdf` row for row, hence also in
non-decreasing `published` order. -/
theorem claim_C10_filtered_view_sorted (df : List Item) (spec : FilterSpec) :
    List.Sorted (fun a b : Item => a.published ≤ b.published) (fdf df spec) ∧
    exportRows df spec = fdf df spec ∧
    List.Sorted (fun a b : Item => a.published ≤ b.published)
      (exportRows df spec) := by
  have h := List.sorted_insertionSort
    (fun a b : Item => a.published ≤ b.published) (df.filter (mask spec))
  exact ⟨h, rfl, h⟩

/-- A calendar date is in the forecaster's daily index exactly when
some kept row was saved on it. -/
theorem mem_plotDates (rows : List Row) (d : Nat) :
    d ∈ plotDates rows ↔ ∃ r ∈ plotKept rows, savedDate r = d := by
  rw [plotDates, List.mem_insertionSort, List.mem_dedup, List.mem_map]

/-- C9 amended: the daily aggregate series the Forecaster fits is
keyed by the calendar date of each kept row's `saved_at` timestamp
(not `published`): `(d, q)` is a series row exactly when some kept row
was saved on date `d` and `q` is the mean score over the rows saved on
`d`. -/
theorem claim_C9_daily_keyed_by_saved_at (rows : List Row) (d : Nat) (q : Rat) :
    (d, q) ∈ daily rows ↔
      (∃ r ∈ plotKept rows, savedDate r = d) ∧
      q = listMean (scoresOnDate rows d) := by
  rw [daily, List.mem_map]
  constructor
  · rintro ⟨e, he, heq⟩
    rw [Prod.mk.injEq] at heq
    obtain ⟨rfl, rfl⟩ := heq
    exact ⟨(mem_plotDates rows e).mp he, rfl⟩
  · rintro ⟨hex, rfl⟩
    exact ⟨d, (mem_plotDates rows d).mpr hex, rfl⟩

/-- Witness for C9: the concrete row saved on day 5 induces the series
row for date 5. -/
theorem claim_C9_witness :
    (5, listMean (scoresOnDate [exRowShift] 5)) ∈ daily [exRowShift] :=
  (claim_C9_daily_keyed_by_saved_at [exRowShift] 5
      (listMean (scoresOnDate [exRowShift] 5))).mpr
    ⟨⟨exRowShift, by simp [plotKept, exRowShift], by decide⟩, rfl⟩

/-- C9 counterexample: a row published on calendar date 0 but saved on
date 5 is aggregated under date 5, not under its `published` date —
the fitted series is keyed by `saved_at`. -/
theorem claim_C9_counterexample :
    (daily [exRowShift]).map Prod.fst = [5] ∧
    exRowShift.published = some 0 ∧
    dateOf 0 = 0 ∧
    (0 : Nat) ∉ (daily [exRowShift]).map Prod.fst := by
  refine ⟨?_, rfl, rfl, ?_⟩ <;> decide

/-- C3 amended: on a daily series with fewer than 2 distinct dates the
Forecaster produces no numeric forecast: the fitting procedure fails
with its insufficient-data error, and since the script installs no
handler the embedded run ends in that uncaught error (a crash) rather
than in a handled "insufficient history" result. -/
theorem claim_C3_insufficient_history (trend width : Nat → Rat)
    (rows : List Row) (h : (daily rows).length < 2) :
    forecastScript trend width rows =
      Except.error "Dataframe has less than 2 non-NaN rows." := by
  unfold forecastScript Prophet.fit
  rw [if_pos h]

/-- Witness for C3: the single-date history consisting of `exRowShift`
makes the run end in the uncaught insufficient-data error. -/
theorem claim_C3_witness :
    (daily [exRowShift]).length < 2 ∧
    forecastScript (fun _ => 0) (fun _ => 0) [exRowShift] =
      Except.error "Dataframe has less than 2 non-NaN rows." :=
  ⟨by decide, claim_C3_insufficient_history _ _ _ (by decide)⟩

/-- C3 counterexample: on a series with one distinct date the script
does not return a handled "insufficient history" result — the fitting
error propagates uncaught (`Except.error`, the model of the script
crashing with a `ValueError`), though indeed no numeric forecast is
produced. -/
theorem claim_C3_counterexample :
    forecastScript (fun _ => 0) (fun _ => 0) [exRowShift] =
      Except.error "Dataframe has less than 2 non-NaN rows." := rfl

/-- Every element of a list of naturals is bounded by its
`foldr max 0`. -/
theorem le_foldr_max (l : List Nat) (x : Nat) (hx : x ∈ l) :
    x ≤ l.foldr max 0 := by
  induction l with
  | nil => cases hx
  | cons a t ih =>
    rcases List.mem_cons.mp hx with rfl | h
    · exact le_max_left _ _
    · exact le_trans (ih h) (le_max_right _ _)

/-- Projecting the dates back out of a prediction recovers the future
frame. -/
theorem map_ds_predict (m : ProphetModel) (future : List Nat) :
    (m.predict future).map ForecastPoint.ds = future := by
  rw [ProphetModel.predict, List.map_map]
  exact List.map_id future

/-- C4 amended: whenever the script returns a forecast, (i) every
forecast row has `yhat_lower ≤ yhat ≤ yhat_upper` (the delegated
prediction contract), (ii) the forecast dates are exactly the observed
daily dates followed by the 7 consecutive dates after the last
observed date — interior calendar gaps of the observed range are NOT
filled, so dates of `[min, max+7]` missing from the observations are
absent — and (iii) the forecast region beyond the observations is
exactly the 7 dates `last+1, ..., last+7`. -/
theorem claim_C4_forecast_shape (trend width : Nat → Rat) (rows : List Row)
    (pts : List ForecastPoint)
    (h : forecastScript trend width rows = Except.ok pts) :
    (∀ p ∈ pts, p.yhat_lower ≤ p.yhat ∧ p.yhat ≤ p.yhat_upper) ∧
    pts.map ForecastPoint.ds =
      (daily rows).map Prod.fst ++
        (List.range 7).map (fun i => lastObserved rows + 1 + i) ∧
    (pts.filter fun p => decide (lastObserved rows < p.ds)).map
        ForecastPoint.ds =
      (List.range 7).map (fun i => lastObserved rows + 1 + i) := by
  unfold forecastScript Prophet.fit at h
  by_cases hlen : (daily rows).length < 2
  · rw [if_pos hlen] at h
    exact absurd h (by simp)
  · rw [if_neg hlen] at h
    injection h with h
    subst h
    refine ⟨?_, ?_, ?_⟩
    · intro p hp
      rw [ProphetModel.predict, List.mem_map] at hp
      obtain ⟨e, _, rfl⟩ := hp
      exact ⟨sub_le_self _ (abs_nonneg _), le_add_of_nonneg_right (abs_nonneg _)⟩
    · rw [map_ds_predict, ProphetModel.make_future_dataframe]
      rfl
    · rw [ProphetModel.predict, List.filter_map, List.map_map]
      have hcomp :
          ((fun p : ForecastPoint => decide (lastObserved rows < p.ds)) ∘
            fun d => ({ ds := d, yhat := trend d,
                        yhat_lower := trend d - |width d|,
                        yhat_upper := trend d + |width d| } : ForecastPoint)) =
          fun d => decide (lastObserved rows < d) := rfl
      rw [hcomp]
      rw [ProphetModel.make_future_dataframe, List.filter_append]
      have h1 : List.filter (fun d => decide (lastObserved rows < d))
          ((daily rows).map Prod.fst) = [] := by
        rw [List.filter_eq_nil_iff]
        intro a ha
        simp only [decide_eq_true_eq]
        exact Nat.not_lt.mpr (le_foldr_max _ _ ha)
      have h2 : List.filter (fun d => decide (lastObserved rows < d))
          ((List.range 7).map fun i =>
            ((daily rows).map Prod.fst).foldr max 0 + 1 + i) =
          (List.range 7).map fun i =>
            ((daily rows).map Prod.fst).foldr max 0 + 1 + i := by
        rw [List.filter_eq_self]
        intro a ha
        rw [List.mem_map] at ha
        obtain ⟨i, _, rfl⟩ := ha
        simp only [decide_eq_true_eq, lastObserved]
        omega
      rw [h1, h2, List.nil_append]
      rfl

/-- Witness for C4: the two-day history `eRows` yields a forecast with
bracketed bounds whose dates are days 0 and 1 followed by days 2-8. -/
theorem claim_C4_witness :
    forecastScript (fun _ => 0) (fun _ => 0) eRows = Except.ok ePts ∧
    (∀ p ∈ ePts, p.yhat_lower ≤ p.yhat ∧ p.yhat ≤ p.yhat_upper) ∧
    ePts.map ForecastPoint.ds =
      (daily eRows).map Prod.fst ++
        (List.range 7).map (fun i => lastObserved eRows + 1 + i) ∧
    (ePts.filter fun p => decide (lastObserved eRows < p.ds)).map
        ForecastPoint.ds =
      (List.range 7).map (fun i => lastObserved eRows + 1 + i) := by
  have heq : forecastScript (fun _ => 0) (fun _ => 0) eRows = Except.ok ePts :=
    rfl
  have h := claim_C4_forecast_shape (fun _ => 0) (fun _ => 0) eRows ePts heq
  exact ⟨heq, h.1, h.2.1, h.2.2⟩

/-- C4 counterexample: with observations on days 0 and 2, the forecast
dates are 0, 2, 3, ..., 9 — date 1 lies in `[min, max+7] = [0, 9]` but
carries no forecast row, refuting "a triple for every date in
`[min(date), max(date)+7]`". -/
theorem claim_C4_counterexample :
    forecastScript (fun _ => 0) (fun _ => 0) gRows = Except.ok gPts ∧
    gPts.map ForecastPoint.ds = [0, 2, 3, 4, 5, 6, 7, 8, 9] ∧
    lastObserved gRows = 2 ∧
    (1 : Nat) ∉ gPts.map ForecastPoint.ds := by
  refine ⟨rfl, ?_, ?_, ?_⟩ <;> decide

/-- C6 amended: `top_sources` returns exactly `min 10 #sources`
entries — at most 10, and all distinct sources when there are fewer
than 10 — sorted non-increasing by mean score.  Sources with equal
means do NOT generally appear in their original relative order (see
the counterexample): groupby sorts the group keys first, and the
value sort fixes no tie order in general. -/
theorem claim_C6_top_sources_sorted_capped (l : List Item) :
    (top_sources l).length = min 10 (sourceMeans l).length ∧
    (top_sources l).length ≤ 10 ∧
    List.Sorted (fun a b : String × Rat => b.2 ≤ a.2) (top_sources l) := by
  refine ⟨?_, List.length_take_le 10 _, ?_⟩
  · rw [top_sources, List.length_take,
      (List.perm_insertionSort _ (sourceMeans l)).length_eq]
  · exact List.Pairwise.sublist (List.take_sublist _ _)
      (List.sorted_insertionSort _ _)

/-- C6 counterexample: two sources with equal mean scores, "bbc"
appearing before "apnews" in the filtered items; `top_sources` lists
"apnews" first (the groupby key order), so ties do NOT preserve the
original relative source order. -/
theorem claim_C6_counterexample :
    (top_sources [exItemB, exItemA]).map Prod.fst = ["apnews", "bbc"] ∧
    [exItemB.source, exItemA.source] = [some "bbc", some "apnews"] ∧
    exItemB.scores = exItemA.scores := by
  refine ⟨?_, rfl, rfl⟩
  have hle : ¬ ("bbc" : String) ≤ "apnews" := by
    rw [String.le_iff_toList_le]
    decide
  have hd : ([exItemB, exItemA].filterMap Item.source).dedup
      = ["bbc", "apnews"] := by decide
  have hkeys : groupKeys [exItemB, exItemA] = ["apnews", "bbc"] := by
    rw [groupKeys, hd]
    simp only [List.insertionSort, List.orderedInsert, if_neg hle]
  have hm : sourceMeans [exItemB, exItemA] =
      [("apnews", listMean [(0.1 : Rat)]), ("bbc", listMean [(0.1 : Rat)])] := by
    rw [sourceMeans, hkeys]
    rfl
  rw [top_sources, hm]
  have hsort : List.insertionSort (fun x y : String × Rat => y.2 ≤ x.2)
      [("apnews", listMean [(0.1 : Rat)]), ("bbc", listMean [(0.1 : Rat)])] =
      [("apnews", listMean [(0.1 : Rat)]), ("bbc", listMean [(0.1 : Rat)])] := by
    rw [List.insertionSort, List.insertionSort, List.insertionSort,
      List.orderedInsert_nil,
      @List.orderedInsert_of_le (String × Rat) (fun x y => y.2 ≤ x.2) _
        ("apnews", listMean [(0.1 : Rat)]) ("bbc", listMean [(0.1 : Rat)])
        [] (le_refl _)]
  rw [hsort]
  rfl

end Sentiment
